import Mathlib

/-!
Verification of the shift / handover state machines of the guard-management
service.  The Python managers (`shift_manager.py`, `handover_manager.py`,
`guard_manager.py`, `object_manager.py`, `report_manager.py`, the
`end_shift` bot handler and the session layer of `database.py`) are shallowly
embedded as pure functions over an explicit database state `DB`.  SQLAlchemy
`query(...).filter(...).first()` becomes `List.find?`, row mutation becomes
`updateFirst`, `session.delete` becomes `List.eraseP` (plus explicit cascade
deletes for the ORM cascade options), and `datetime.now()` is an explicit
`now : Nat` parameter.  Each operation commits at the same program points as
the source; sequential effects are threaded through the state.
-/

/-- Row of the `users` table (`models.User`); only the columns read by the
modelled operations are kept (`username`, `full_name`, `phone`,
`password_hash`, `approved_at`, `notifications_enabled` are never read by the
shift / handover logic). `object_id` is `Option` because
`get_guard_object_id` returns `None` for a missing guard and the code tests
the value for truthiness. -/
structure User where
  user_id : Nat
  object_id : Option Nat
  role : String
  is_active : Bool
deriving Repr, DecidableEq

/-- Row of `security_objects` (`models.SecurityObject`); `name` and the
timestamps are only used in user-facing messages and are omitted.
`protection_type` is the string column defaulting to `SHIFT`. -/
structure SecurityObject where
  id : Nat
  is_active : Bool
  protection_type : String
deriving Repr, DecidableEq

/-- Row of `shifts` (`models.Shift`); `created_at` / `updated_at` are never
read by the modelled logic. `status` ranges over `ACTIVE`, `COMPLETED`,
`HANDED_OVER` as in the source. -/
structure Shift where
  id : Nat
  guard_id : Nat
  object_id : Nat
  start_time : Nat
  end_time : Option Nat
  status : String
deriving Repr, DecidableEq

/-- Row of `events` (`models.Event`); only the `shift_id` link is read by the
modelled operations (the report counts events of a shift). -/
structure Event where
  id : Nat
  shift_id : Nat
deriving Repr, DecidableEq

/-- Row of `shift_handovers` (`models.ShiftHandover`). `status` ranges over
`PENDING`, `ACCEPTED`, `ACCEPTED_WITH_NOTES`. -/
structure ShiftHandover where
  id : Nat
  shift_id : Nat
  handover_by_id : Nat
  handover_to_id : Nat
  status : String
  summary : String
  notes : Option String
  handed_over_at : Nat
  accepted_at : Option Nat
deriving Repr, DecidableEq

/-- Row of `reports` (`models.Report`). -/
structure Report where
  id : Nat
  shift_handover_id : Nat
  object_id : Nat
  shift_start : Nat
  shift_end : Nat
  handover_by_id : Nat
  handover_to_id : Nat
  events_count : Nat
  notes : String
deriving Repr, DecidableEq

/-- The database state: the tables touched by the modelled operations plus
the autoincrement counters for the inserted rows. -/
structure DB where
  users : List User
  objects : List SecurityObject
  shifts : List Shift
  events : List Event
  handovers : List ShiftHandover
  reports : List Report
  nextShiftId : Nat
  nextHandoverId : Nat
  nextReportId : Nat
deriving Repr, DecidableEq

/-- Mutating the single row returned by `query(...).filter(p).first()`:
apply `f` to the first element satisfying `p`, leave the rest unchanged. -/
def updateFirst (p : α → Bool) (f : α → α) : List α → List α
  | [] => []
  | x :: xs => if p x then f x :: xs else x :: updateFirst p f xs

/-- Python truthiness of an `Optional[str]`: `None` and the empty string are
falsy, every other string is truthy. -/
def strTruthy : Option String → Bool
  | none => false
  | some s => !(s == "")

/-- `AuthManager.is_user_allowed` (`auth.py`): the user row exists and
`is_active` is set. -/
def is_user_allowed (db : DB) (user_id : Nat) : Bool :=
  (db.users.find? (fun u => u.user_id == user_id && u.is_active)).isSome

/-- `GuardManager.is_guard_active` (`guard_manager.py`): the user row exists
with `is_active = True`. -/
def is_guard_active (db : DB) (user_id : Nat) : Bool :=
  (db.users.find? (fun u => u.user_id == user_id && u.is_active)).isSome

/-- `GuardManager.get_guard` (`guard_manager.py`): the user row by id. -/
def get_guard (db : DB) (user_id : Nat) : Option User :=
  db.users.find? (fun u => u.user_id == user_id)

/-- `GuardManager.get_guard_object_id` (`guard_manager.py`):
`guard.object_id if guard else None`. -/
def get_guard_object_id (db : DB) (user_id : Nat) : Option Nat :=
  match db.users.find? (fun u => u.user_id == user_id) with
  | none => none
  | some u => u.object_id

/-- `ObjectManager.get_object` (`object_manager.py`): the object row by id. -/
def get_object (db : DB) (object_id : Nat) : Option SecurityObject :=
  db.objects.find? (fun o => o.id == object_id)

/-- `ShiftManager.get_active_shift` (`shift_manager.py`): first shift of the
guard with `status = ACTIVE`. -/
def get_active_shift (db : DB) (guard_id : Nat) : Option Shift :=
  db.shifts.find? (fun s => s.guard_id == guard_id && s.status == "ACTIVE")

/-- `ShiftManager.get_active_shift_for_object` (`shift_manager.py`): first
shift on the object with `status = ACTIVE`, any guard. -/
def get_active_shift_for_object (db : DB) (object_id : Nat) : Option Shift :=
  db.shifts.find? (fun s => s.object_id == object_id && s.status == "ACTIVE")

/-- `ShiftManager.get_shift` (`shift_manager.py`): the shift row by id. -/
def get_shift (db : DB) (shift_id : Nat) : Option Shift :=
  db.shifts.find? (fun s => s.id == shift_id)

/-- `HandoverManager.has_pending_handover_on_object` (`handover_manager.py`):
a `PENDING` handover sent by the guard whose joined shift lies on the
object. -/
def has_pending_handover_on_object (db : DB) (guard_id object_id : Nat) : Bool :=
  db.handovers.any (fun h =>
    h.handover_by_id == guard_id && h.status == "PENDING" &&
      (match get_shift db h.shift_id with
       | some s => s.object_id == object_id
       | none => false))

/-- The distinct failure exits of `ShiftManager.create_shift`, one per
`return None` site (each site logs a distinct error message). -/
inductive CreateShiftErr where
  | guardInactive
  | noObjectAssigned
  | activeShiftExists
  | pendingHandoverExists
  | objectHasActiveShift
deriving Repr, DecidableEq

/-- `ShiftManager.create_shift` (`shift_manager.py`): the five precondition
checks in source order, then insert of a new `ACTIVE` shift with
`start_time = now`.  The source returns `Optional[int]`; the failure exits
are distinguished here by `CreateShiftErr` following the logged messages. -/
def create_shift (db : DB) (guard_id now : Nat) : Except CreateShiftErr Nat × DB :=
  if ¬ is_guard_active db guard_id then (.error .guardInactive, db)
  else
    match get_guard_object_id db guard_id with
    | none => (.error .noObjectAssigned, db)
    | some object_id =>
      if (get_active_shift db guard_id).isSome then (.error .activeShiftExists, db)
      else if has_pending_handover_on_object db guard_id object_id then
        (.error .pendingHandoverExists, db)
      else if (get_active_shift_for_object db object_id).isSome then
        (.error .objectHasActiveShift, db)
      else
        let sid := db.nextShiftId
        (.ok sid,
          { db with
            shifts := db.shifts ++
              [{ id := sid, guard_id := guard_id, object_id := object_id,
                 start_time := now, end_time := none, status := "ACTIVE" }],
            nextShiftId := sid + 1 })

/-- `ShiftManager.complete_shift` (`shift_manager.py`): the shift must exist
and be `ACTIVE`; sets `end_time = now` and `status = COMPLETED`. -/
def complete_shift (db : DB) (shift_id now : Nat) : Bool × DB :=
  match db.shifts.find? (fun s => s.id == shift_id) with
  | none => (false, db)
  | some s =>
    if s.status ≠ "ACTIVE" then (false, db)
    else
      (true,
        { db with
          shifts := updateFirst (fun t => t.id == shift_id)
            (fun t => { t with end_time := some now, status := "COMPLETED" }) db.shifts })

/-- `ShiftManager.mark_shift_handed_over` (`shift_manager.py`): sets
`status = HANDED_OVER` and fills `end_time` with `now` only when it was
unset. -/
def mark_shift_handed_over (db : DB) (shift_id now : Nat) : Bool × DB :=
  match db.shifts.find? (fun s => s.id == shift_id) with
  | none => (false, db)
  | some _ =>
    (true,
      { db with
        shifts := updateFirst (fun t => t.id == shift_id)
          (fun t =>
            { t with
              status := "HANDED_OVER",
              end_time := match t.end_time with
                | none => some now
                | some e => some e }) db.shifts })

/-- `ShiftManager.update_shift` (`shift_manager.py`): overwrite exactly the
fields that were passed (`None` parameters leave the column untouched). -/
def update_shift (db : DB) (shift_id : Nat) (guard_id object_id start_time end_time : Option Nat)
    (status : Option String) : Bool × DB :=
  match db.shifts.find? (fun s => s.id == shift_id) with
  | none => (false, db)
  | some _ =>
    (true,
      { db with
        shifts := updateFirst (fun t => t.id == shift_id)
          (fun t =>
            { t with
              guard_id := guard_id.getD t.guard_id,
              object_id := object_id.getD t.object_id,
              start_time := start_time.getD t.start_time,
              end_time := match end_time with
                | none => t.end_time
                | some e => some e,
              status := status.getD t.status }) db.shifts })

/-- `ShiftManager.delete_shift` (`shift_manager.py`): deletes the shift row;
the ORM cascade options (`models.py`) delete the events and handovers of the
shift, and with each deleted handover its report. -/
def delete_shift (db : DB) (shift_id : Nat) : Bool × DB :=
  match db.shifts.find? (fun s => s.id == shift_id) with
  | none => (false, db)
  | some _ =>
    (true,
      { db with
        shifts := db.shifts.eraseP (fun s => s.id == shift_id),
        events := db.events.filter (fun e => ¬ e.shift_id == shift_id),
        handovers := db.handovers.filter (fun h => ¬ h.shift_id == shift_id),
        reports := db.reports.filter (fun r =>
          ¬ db.handovers.any (fun h => h.shift_id == shift_id && h.id == r.shift_handover_id)) })

/-- `ShiftManager.generate_shift_summary` (`shift_manager.py`): the formatted
Ukrainian text is abstracted; the control flow (shift found or not) and the
data dependencies (shift id, number of events of the shift) are kept.  No
claim depends on the exact text, only on the fact that a summary string is
stored with the handover. -/
def generate_shift_summary (db : DB) (shift_id : Nat) : String :=
  match db.shifts.find? (fun s => s.id == shift_id) with
  | none => "shift not found"
  | some _ =>
    "summary of shift " ++ toString shift_id ++ " with " ++
      toString (db.events.filter (fun e => e.shift_id == shift_id)).length ++ " events"

/-- `ReportManager.create_report_from_handover` (`report_manager.py`): the
handover must exist with `status = ACCEPTED_WITH_NOTES` and truthy notes; an
existing report for the handover is returned as is; otherwise a report is
built from the handover and its shift (with `shift_end` defaulting to `now`
when the shift has no `end_time`). -/
def create_report_from_handover (db : DB) (handover_id now : Nat) : Option Nat × DB :=
  match db.handovers.find? (fun h => h.id == handover_id) with
  | none => (none, db)
  | some h =>
    if h.status ≠ "ACCEPTED_WITH_NOTES" then (none, db)
    else if ¬ strTruthy h.notes then (none, db)
    else
      match db.reports.find? (fun r => r.shift_handover_id == handover_id) with
      | some r => (some r.id, db)
      | none =>
        match db.shifts.find? (fun s => s.id == h.shift_id) with
        | none => (none, db)
        | some s =>
          (some db.nextReportId,
            { db with
              reports := db.reports ++
                [{ id := db.nextReportId, shift_handover_id := handover_id,
                   object_id := s.object_id, shift_start := s.start_time,
                   shift_end := s.end_time.getD now,
                   handover_by_id := h.handover_by_id, handover_to_id := h.handover_to_id,
                   events_count := (db.events.filter (fun e => e.shift_id == h.shift_id)).length,
                   notes := h.notes.getD "" }],
              nextReportId := db.nextReportId + 1 })

/-- `HandoverManager.create_handover` (`handover_manager.py`) as the sequence
of its committed states.  The source performs three separate commits after
the precondition checks pass: (1) its own session commits the inserted
`PENDING` handover row, (2) `complete_shift` commits the source shift as
`COMPLETED` with `end_time = now` in its own session, (3)
`mark_shift_handed_over` commits the shift as `HANDED_OVER` in a third
session.  The list holds the database state as of each commit, in order; it
is empty exactly when a precondition check fails (nothing is written). -/
def create_handover_commits (db : DB) (shift_id handover_by_id handover_to_id now : Nat) :
    List DB :=
  match get_shift db shift_id with
  | none => []
  | some shift =>
    if shift.status ≠ "ACTIVE" then []
    else if shift.guard_id ≠ handover_by_id then []
    else if (match get_object db shift.object_id with
             | some obj => obj.protection_type == "TEMPORARY_SINGLE"
             | none => false) then []
    else if ¬ is_guard_active db handover_to_id then []
    else if (match get_guard db handover_to_id with
             | some g => g.role == "admin"
             | none => false) then []
    else if (match get_guard db handover_to_id with
             | some g => g.role == "controller"
             | none => false) then []
    else if get_guard_object_id db handover_by_id ≠ get_guard_object_id db handover_to_id then []
    else
      let db1 : DB :=
        { db with
          handovers := db.handovers ++
            [{ id := db.nextHandoverId, shift_id := shift_id,
               handover_by_id := handover_by_id, handover_to_id := handover_to_id,
               status := "PENDING", summary := generate_shift_summary db shift_id,
               notes := none, handed_over_at := now, accepted_at := none }],
          nextHandoverId := db.nextHandoverId + 1 }
      let db2 := (complete_shift db1 shift_id now).2
      let db3 := (mark_shift_handed_over db2 shift_id now).2
      [db1, db2, db3]

/-- `HandoverManager.create_handover` (`handover_manager.py`): returns the id
of the inserted handover and the state after the last commit, or `none` with
the state unchanged when a precondition check fails. -/
def create_handover (db : DB) (shift_id handover_by_id handover_to_id now : Nat) :
    Option Nat × DB :=
  match (create_handover_commits db shift_id handover_by_id handover_to_id now).getLast? with
  | none => (none, db)
  | some dbf => (some db.nextHandoverId, dbf)

/-- `HandoverManager.accept_handover` (`handover_manager.py`): the handover
must exist, be `PENDING` and belong to the caller as receiver; the status /
notes / `accepted_at` update is committed, then (when `with_notes` and the
notes string are truthy) a report is created, then `create_shift` is run for
the receiver; the call returns success regardless of the outcome of that
`create_shift`. -/
def accept_handover (db : DB) (handover_id accepted_by_id : Nat) (with_notes : Bool)
    (notes : Option String) (now : Nat) : Bool × DB :=
  match db.handovers.find? (fun h => h.id == handover_id) with
  | none => (false, db)
  | some h =>
    if h.status ≠ "PENDING" then (false, db)
    else if h.handover_to_id ≠ accepted_by_id then (false, db)
    else
      let db1 : DB :=
        { db with
          handovers := updateFirst (fun x => x.id == handover_id)
            (fun x =>
              if with_notes && strTruthy notes then
                { x with status := "ACCEPTED_WITH_NOTES",
                         notes := some ((notes.getD "").trim),
                         accepted_at := some now }
              else
                { x with status := "ACCEPTED", accepted_at := some now }) db.handovers }
      let db2 :=
        if with_notes && strTruthy notes then
          (create_report_from_handover db1 handover_id now).2
        else db1
      let db3 := (create_shift db2 accepted_by_id now).2
      (true, db3)

/-- `HandoverManager.cancel_handover` (`handover_manager.py`): cancellation
by the sender.  Without `force` only a `PENDING` handover may be cancelled;
with `force` an accepted handover additionally loses the receiver shift
created by the acceptance (`delete_shift` of the receiver active shift) and,
for `ACCEPTED_WITH_NOTES`, the derived report; either way the source shift
is restored to `ACTIVE` with `end_time` cleared and the handover row is
deleted (its report going with it by cascade). -/
def cancel_handover (db : DB) (handover_id cancelled_by_id : Nat) (force : Bool) :
    Bool × DB :=
  match db.handovers.find? (fun h => h.id == handover_id) with
  | none => (false, db)
  | some h =>
    if ¬ force ∧ h.status ≠ "PENDING" then (false, db)
    else if h.handover_by_id ≠ cancelled_by_id then (false, db)
    else
      let db1 : DB :=
        if h.status = "ACCEPTED" ∨ h.status = "ACCEPTED_WITH_NOTES" then
          let dbA :=
            match get_active_shift db h.handover_to_id with
            | some s => (delete_shift db s.id).2
            | none => db
          if h.status = "ACCEPTED_WITH_NOTES" then
            { dbA with reports := dbA.reports.eraseP (fun r => r.shift_handover_id == handover_id) }
          else dbA
        else db
      let db2 : DB :=
        match db1.shifts.find? (fun s => s.id == h.shift_id) with
        | none => db1
        | some _ =>
          { db1 with
            shifts := updateFirst (fun s => s.id == h.shift_id)
              (fun s => { s with status := "ACTIVE", end_time := none }) db1.shifts }
      (true,
        { db2 with
          handovers := db2.handovers.eraseP (fun x => x.id == handover_id),
          reports := db2.reports.eraseP (fun r => r.shift_handover_id == handover_id) })

/-- `HandoverManager.reject_handover` (`handover_manager.py`): undo of an
acceptance by the receiver.  The handover must be `ACCEPTED` or
`ACCEPTED_WITH_NOTES` and belong to the caller as receiver; when the
receiver has an active shift, `force` is required and the shift is deleted;
for `ACCEPTED_WITH_NOTES` the derived report is deleted; the handover
returns to `PENDING` with `accepted_at` and `notes` cleared. -/
def reject_handover (db : DB) (handover_id rejected_by_id : Nat) (force : Bool) :
    Bool × DB :=
  match db.handovers.find? (fun h => h.id == handover_id) with
  | none => (false, db)
  | some h =>
    if ¬ (h.status = "ACCEPTED" ∨ h.status = "ACCEPTED_WITH_NOTES") then (false, db)
    else if h.handover_to_id ≠ rejected_by_id then (false, db)
    else
      let active := get_active_shift db rejected_by_id
      if active.isSome ∧ force = false then (false, db)
      else
        let db1 : DB :=
          match active with
          | some s => (delete_shift db s.id).2
          | none => db
        let db2 : DB :=
          if h.status = "ACCEPTED_WITH_NOTES" then
            { db1 with reports := db1.reports.eraseP (fun r => r.shift_handover_id == handover_id) }
          else db1
        (true,
          { db2 with
            handovers := updateFirst (fun x => x.id == handover_id)
              (fun x => { x with status := "PENDING", accepted_at := none, notes := none })
              db2.handovers })

/-- The `end_shift_callback` handler (`bot.py`): after the access check the
caller needs an active shift whose object exists with
`protection_type = TEMPORARY_SINGLE`; only then is `complete_shift` run. -/
def end_shift (db : DB) (user_id now : Nat) : Bool × DB :=
  if ¬ is_user_allowed db user_id then (false, db)
  else
    match get_active_shift db user_id with
    | none => (false, db)
    | some s =>
      match get_object db s.object_id with
      | none => (false, db)
      | some obj =>
        if obj.protection_type ≠ "TEMPORARY_SINGLE" then (false, db)
        else complete_shift db s.id now

/-- Classification of a store error inside a unit of work, as made by
`DatabaseManager.get_session` (`database.py`): `transient` when the message
contains `locked` or `busy`, `other` for every other `OperationalError`,
`DatabaseError` or unexpected exception. -/
inductive StoreErr where
  | transient
  | other
deriving Repr, DecidableEq

/-- Outcome of one execution of the caller-supplied unit of work (the body of
the `with get_session() as session:` block). -/
inductive BodyOutcome where
  | ok
  | raises (e : StoreErr)
deriving Repr, DecidableEq

/-- Outcome of the whole `with get_session(): ...` statement as seen by the
caller. `runtimeError` is the `RuntimeError` raised by
`contextlib._GeneratorContextManager` when the generator misbehaves
(yields again after a `throw`, or never yields). -/
inductive SessionOutcome where
  | success
  | raised (e : StoreErr)
  | runtimeError
deriving Repr, DecidableEq

/-- Observable trace of one `with get_session(): ...` statement:
how many times the unit of work ran, whether a commit and a rollback
happened, whether `session.close()` ran, and the performed sleeps in tenths
of a second (the source sleeps `0.5 * retries` seconds). -/
structure SessionTrace where
  executions : Nat
  committed : Bool
  rolledBack : Bool
  closed : Bool
  sleptTenths : List Nat
deriving Repr, DecidableEq

/-- `DatabaseManager.get_session` (`database.py`) combined with the CPython
`contextlib.contextmanager` protocol that runs it.  The source is a generator
wrapped in `@contextmanager`; the `with` statement advances it to the first
`yield`, runs the body once, then either resumes it (success: commit, break,
close) or throws the body exception into it at the `yield`.  A thrown
transient locked / busy error is rolled back, the session closed by the
`finally` inside the loop, `0.5 * retries` seconds slept, and the loop
reaches `yield` again — at which point `contextlib` raises
`RuntimeError (generator did not stop after throw)`; the unit of work is
never re-executed.  A thrown non-transient error is rolled back, the session
closed, and re-raised to the caller.  With `max_retries = 0` the loop body
never runs: the generator returns before the first `yield` and `contextlib`
raises `RuntimeError (generator did not yield)` with the session never
closed.  With `max_retries = 1` the transient branch exhausts immediately
(`retries` becomes `1`, not `< 1`) and the original error is re-raised. -/
def get_session_run (body : BodyOutcome) (max_retries : Nat) : SessionOutcome × SessionTrace :=
  if max_retries = 0 then
    (.runtimeError,
      { executions := 0, committed := false, rolledBack := false, closed := false,
        sleptTenths := [] })
  else
    match body with
    | .ok =>
      (.success,
        { executions := 1, committed := true, rolledBack := false, closed := true,
          sleptTenths := [] })
    | .raises .other =>
      (.raised .other,
        { executions := 1, committed := false, rolledBack := true, closed := true,
          sleptTenths := [] })
    | .raises .transient =>
      if 1 < max_retries then
        (.runtimeError,
          { executions := 1, committed := false, rolledBack := true, closed := true,
            sleptTenths := [5] })
      else
        (.raised .transient,
          { executions := 1, committed := false, rolledBack := true, closed := true,
            sleptTenths := [] })

/-- The shift row invariant of the specification: `end_time` is set if and
only if the status differs from `ACTIVE`. -/
def ShiftInvariant (s : Shift) : Prop :=
  s.end_time.isSome ↔ s.status ≠ "ACTIVE"

instance (s : Shift) : Decidable (ShiftInvariant s) := by
  unfold ShiftInvariant; infer_instance

/-- The shift row invariant holding for every row of the table. -/
def DB.shiftInvariant (db : DB) : Prop :=
  ∀ s ∈ db.shifts, ShiftInvariant s

instance (db : DB) : Decidable (db.shiftInvariant) := by
  unfold DB.shiftInvariant; infer_instance

/-- Well-formedness of a database state: row ids are unique per table, the
`unique=True` constraint on `Report.shift_handover_id` holds, and every
stored id is below the corresponding autoincrement counter. -/
def DB.WF (db : DB) : Prop :=
  (db.shifts.map (fun s => s.id)).Nodup ∧
  (db.handovers.map (fun h => h.id)).Nodup ∧
  (db.reports.map (fun r => r.id)).Nodup ∧
  (db.reports.map (fun r => r.shift_handover_id)).Nodup ∧
  (∀ s ∈ db.shifts, s.id < db.nextShiftId) ∧
  (∀ h ∈ db.handovers, h.id < db.nextHandoverId) ∧
  (∀ r ∈ db.reports, r.id < db.nextReportId)

instance (db : DB) : Decidable (db.WF) := by
  unfold DB.WF; infer_instance

theorem updateFirst_nil (p : α → Bool) (f : α → α) : updateFirst p f [] = [] := rfl

theorem updateFirst_cons (p : α → Bool) (f : α → α) (x : α) (xs : List α) :
    updateFirst p f (x :: xs) = if p x then f x :: xs else x :: updateFirst p f xs := rfl

theorem find?_updateFirst (p : α → Bool) (f : α → α) (l : List α)
    (hpf : ∀ x, p x = true → p (f x) = true) :
    (updateFirst p f l).find? p = (l.find? p).map f := by
  induction l with
  | nil => rfl
  | cons x xs ih =>
    by_cases hx : p x = true
    · simp [updateFirst_cons, hx, List.find?_cons_of_pos, hpf x hx]
    · have hx' : p x = false := by simpa using hx
      simp [updateFirst_cons, hx', List.find?_cons_of_neg, ih]

theorem mem_updateFirst {p : α → Bool} {f : α → α} {l : List α} {x : α}
    (h : x ∈ updateFirst p f l) : x ∈ l ∨ ∃ y ∈ l, p y = true ∧ x = f y := by
  induction l with
  | nil => simp [updateFirst_nil] at h
  | cons z zs ih =>
    by_cases hz : p z = true
    · simp only [updateFirst_cons, if_pos hz, List.mem_cons] at h
      rcases h with h | h
      · exact Or.inr ⟨z, List.mem_cons_self z zs, hz, h⟩
      · exact Or.inl (List.mem_cons_of_mem z h)
    · simp only [updateFirst_cons, if_neg hz, List.mem_cons] at h
      rcases h with h | h
      · exact Or.inl (by simp [h])
      · rcases ih h with h' | ⟨y, hy, hpy, hxy⟩
        · exact Or.inl (List.mem_cons_of_mem z h')
        · exact Or.inr ⟨y, List.mem_cons_of_mem z hy, hpy, hxy⟩

theorem updateFirst_updateFirst (p : α → Bool) (f g : α → α) (l : List α)
    (hpf : ∀ x, p x = true → p (f x) = true) :
    updateFirst p g (updateFirst p f l) = updateFirst p (fun x => g (f x)) l := by
  induction l with
  | nil => rfl
  | cons x xs ih =>
    by_cases hx : p x = true
    · simp [updateFirst_cons, hx, hpf x hx]
    · have hx' : p x = false := by simpa using hx
      simp [updateFirst_cons, hx', ih]

theorem updateFirst_congr (p : α → Bool) (f g : α → α) (l : List α)
    (h : ∀ x, f x = g x) : updateFirst p f l = updateFirst p g l := by
  induction l with
  | nil => rfl
  | cons x xs ih => by_cases hx : p x <;> simp [updateFirst_cons, hx, h x, ih]

theorem map_updateFirst (key : α → β) (p : α → Bool) (f : α → α) (l : List α)
    (hk : ∀ x, key (f x) = key x) :
    (updateFirst p f l).map key = l.map key := by
  induction l with
  | nil => rfl
  | cons x xs ih => by_cases hx : p x <;> simp [updateFirst_cons, hx, hk, ih]

theorem find?_append_of_none (p : α → Bool) (l₁ l₂ : List α)
    (h : l₁.find? p = none) : (l₁ ++ l₂).find? p = l₂.find? p := by
  induction l₁ with
  | nil => rfl
  | cons x xs ih =>
    have hx : p x = false := by
      have := List.find?_eq_none.mp h x (List.mem_cons_self x xs)
      simpa using this
    have hxs : xs.find? p = none := by
      apply List.find?_eq_none.mpr
      intro y hy
      exact List.find?_eq_none.mp h y (List.mem_cons_of_mem x hy)
    simp [List.cons_append, List.find?_cons_of_neg, hx, ih hxs]

theorem eraseP_append_of_none (p : α → Bool) (l₁ l₂ : List α)
    (h : ∀ x ∈ l₁, p x = false) : (l₁ ++ l₂).eraseP p = l₁ ++ l₂.eraseP p := by
  induction l₁ with
  | nil => rfl
  | cons x xs ih =>
    have hx := h x (List.mem_cons_self x xs)
    simp only [List.cons_append, List.eraseP_cons, hx]
    simp [ih fun y hy => h y (List.mem_cons_of_mem x hy)]

theorem find?_key_of_mem_nodup (key : α → Nat) {l : List α} {x : α}
    (hnd : (l.map key).Nodup) (hx : x ∈ l) :
    l.find? (fun y => key y == key x) = some x := by
  induction l with
  | nil => simp at hx
  | cons z zs ih =>
    rcases List.mem_cons.mp hx with rfl | hx'
    · simp [List.find?_cons_of_pos]
    · have hnd' : (zs.map key).Nodup := (List.nodup_cons.mp hnd).2
      have hz : key z ∉ zs.map key := (List.nodup_cons.mp hnd).1
      have hne : (key z == key x) = false := by
        simp only [beq_eq_false_iff_ne, ne_eq]
        intro hkey
        exact hz (hkey ▸ List.mem_map_of_mem key hx')
      simp [List.find?_cons_of_neg, hne, ih hnd' hx']

theorem eraseP_key_not_mem (key : α → Nat) (k : Nat) {l : List α}
    (hnd : (l.map key).Nodup) :
    ∀ y ∈ l.eraseP (fun z => key z == k), key y ≠ k := by
  induction l with
  | nil => simp
  | cons x xs ih =>
    have hnd' : (xs.map key).Nodup := (List.nodup_cons.mp hnd).2
    have hx : key x ∉ xs.map key := (List.nodup_cons.mp hnd).1
    by_cases hxk : key x = k
    · intro y hy
      have hb : (key x == k) = true := by simp [hxk]
      rw [List.eraseP_cons, hb, cond_true] at hy
      intro hyk
      exact hx (by rw [hxk, ← hyk]; exact List.mem_map_of_mem key hy)
    · intro y hy
      have hb : (key x == k) = false := by simp [hxk]
      rw [List.eraseP_cons, hb, cond_false] at hy
      rcases List.mem_cons.mp hy with rfl | hy'
      · exact hxk
      · exact ih hnd' y hy'

/-- Sample state: guard 1 holds the `ACTIVE` shift 100 on object 10; guard 2
is an active guard on the same object; no handovers yet. -/
def dbHandoverDemo : DB :=
  { users := [{ user_id := 1, object_id := some 10, role := "guard", is_active := true },
              { user_id := 2, object_id := some 10, role := "guard", is_active := true }],
    objects := [{ id := 10, is_active := true, protection_type := "SHIFT" }],
    shifts := [{ id := 100, guard_id := 1, object_id := 10, start_time := 0,
                 end_time := none, status := "ACTIVE" }],
    events := [], handovers := [], reports := [],
    nextShiftId := 101, nextHandoverId := 200, nextReportId := 1 }

/-- Sample state after a handover was created: shift 100 of guard 1 is
`HANDED_OVER` and handover 200 to guard 2 is `PENDING`, but guard 2 has
been deactivated in the meantime. -/
def dbReceiverInactive : DB :=
  { users := [{ user_id := 1, object_id := some 10, role := "guard", is_active := true },
              { user_id := 2, object_id := some 10, role := "guard", is_active := false }],
    objects := [{ id := 10, is_active := true, protection_type := "SHIFT" }],
    shifts := [{ id := 100, guard_id := 1, object_id := 10, start_time := 0,
                 end_time := some 1, status := "HANDED_OVER" }],
    events := [],
    handovers := [{ id := 200, shift_id := 100, handover_by_id := 1, handover_to_id := 2,
                    status := "PENDING", summary := "s", notes := none,
                    handed_over_at := 1, accepted_at := none }],
    reports := [],
    nextShiftId := 101, nextHandoverId := 201, nextReportId := 1 }

/-- C1: `ShiftManager.create_shift` checks its preconditions in exactly the
source order — guard active, guard has an assigned object, guard has no
`ACTIVE` shift, guard has no `PENDING` handover they initiated on that
object, the object has no `ACTIVE` shift of any guard — the first failing
check determines the failure; a new shift id is returned exactly when all
five hold, and on success a shift with `status = ACTIVE` and
`start_time = now` is inserted. -/
theorem create_shift_checks_in_order (db : DB) (gid now : Nat) :
    ((∃ sid, (create_shift db gid now).1 = .ok sid) ↔
      (is_guard_active db gid = true ∧
        ∃ oid, get_guard_object_id db gid = some oid ∧
          get_active_shift db gid = none ∧
          has_pending_handover_on_object db gid oid = false ∧
          get_active_shift_for_object db oid = none)) ∧
    ((create_shift db gid now).1 = .error .guardInactive ↔
      is_guard_active db gid = false) ∧
    ((create_shift db gid now).1 = .error .noObjectAssigned ↔
      (is_guard_active db gid = true ∧ get_guard_object_id db gid = none)) ∧
    ((create_shift db gid now).1 = .error .activeShiftExists ↔
      (is_guard_active db gid = true ∧ (get_guard_object_id db gid).isSome = true ∧
        (get_active_shift db gid).isSome = true)) ∧
    ((create_shift db gid now).1 = .error .pendingHandoverExists ↔
      (is_guard_active db gid = true ∧
        ∃ oid, get_guard_object_id db gid = some oid ∧
          get_active_shift db gid = none ∧
          has_pending_handover_on_object db gid oid = true)) ∧
    ((create_shift db gid now).1 = .error .objectHasActiveShift ↔
      (is_guard_active db gid = true ∧
        ∃ oid, get_guard_object_id db gid = some oid ∧
          get_active_shift db gid = none ∧
          has_pending_handover_on_object db gid oid = false ∧
          (get_active_shift_for_object db oid).isSome = true)) ∧
    (∀ sid, (create_shift db gid now).1 = .ok sid →
      sid = db.nextShiftId ∧
      ∃ oid, get_guard_object_id db gid = some oid ∧
        (create_shift db gid now).2 =
          { db with
            shifts := db.shifts ++
              [{ id := sid, guard_id := gid, object_id := oid,
                 start_time := now, end_time := none, status := "ACTIVE" }],
            nextShiftId := sid + 1 }) := by
  unfold create_shift
  by_cases h1 : is_guard_active db gid
  · cases hobj : get_guard_object_id db gid with
    | none => simp [h1, hobj]
    | some oid =>
      by_cases h3 : (get_active_shift db gid).isSome
      · simp [h1, hobj, h3, Option.isSome_iff_exists]
        rcases Option.isSome_iff_exists.mp h3 with ⟨s, hs⟩
        simp [hs]
      · have h3' : get_active_shift db gid = none := Option.not_isSome_iff_eq_none.mp h3
        by_cases h4 : has_pending_handover_on_object db gid oid
        · simp [h1, hobj, h3', h4]
        · have h4' : has_pending_handover_on_object db gid oid = false := by
            simpa using h4
          by_cases h5 : (get_active_shift_for_object db oid).isSome
          · simp [h1, hobj, h3', h4', h5]
            exact Option.isSome_iff_ne_none.mp h5
          · have h5' : get_active_shift_for_object db oid = none :=
              Option.not_isSome_iff_eq_none.mp h5
            simp [h1, hobj, h3', h4', h5']
  · have h1' : is_guard_active db gid = false := by simpa using h1
    simp [h1']

/-- Witness for C1 at a concrete state: guard 2 on `dbHandoverDemo` is
blocked exactly because object 10 already carries the `ACTIVE` shift of
guard 1. -/
theorem create_shift_checks_in_order_witness :
    (∃ sid, (create_shift dbHandoverDemo 2 5).1 = Except.ok sid) ↔
      (is_guard_active dbHandoverDemo 2 = true ∧
        ∃ oid, get_guard_object_id dbHandoverDemo 2 = some oid ∧
          get_active_shift dbHandoverDemo 2 = none ∧
          has_pending_handover_on_object dbHandoverDemo 2 oid = false ∧
          get_active_shift_for_object dbHandoverDemo oid = none) :=
  (create_shift_checks_in_order dbHandoverDemo 2 5).1

theorem create_shift_frame (db : DB) (gid now : Nat) :
    ((create_shift db gid now).2).users = db.users ∧
    ((create_shift db gid now).2).objects = db.objects ∧
    ((create_shift db gid now).2).events = db.events ∧
    ((create_shift db gid now).2).handovers = db.handovers ∧
    ((create_shift db gid now).2).reports = db.reports ∧
    ((create_shift db gid now).2).nextHandoverId = db.nextHandoverId ∧
    ((create_shift db gid now).2).nextReportId = db.nextReportId := by
  unfold create_shift
  repeat' split
  all_goals exact ⟨rfl, rfl, rfl, rfl, rfl, rfl, rfl⟩

theorem create_shift_result_cases (db : DB) (gid now : Nat) :
    (create_shift db gid now).2 = db ∨
      ∃ oid, get_guard_object_id db gid = some oid ∧
        (create_shift db gid now).2 =
          { db with
            shifts := db.shifts ++
              [{ id := db.nextShiftId, guard_id := gid, object_id := oid,
                 start_time := now, end_time := none, status := "ACTIVE" }],
            nextShiftId := db.nextShiftId + 1 } := by
  unfold create_shift
  by_cases h1 : is_guard_active db gid
  · cases hobj : get_guard_object_id db gid with
    | none => simp [h1, hobj]
    | some oid =>
      by_cases h3 : (get_active_shift db gid).isSome
      · simp [h1, hobj, h3]
      · by_cases h4 : has_pending_handover_on_object db gid oid
        · simp [h1, hobj, h3, h4]
        · by_cases h5 : (get_active_shift_for_object db oid).isSome
          · simp [h1, hobj, h3, h4, h5]
          · right
            exact ⟨oid, rfl, by simp [h1, hobj, h3, h4, h5]⟩
  · simp [h1]

theorem create_report_frame (db : DB) (hid now : Nat) :
    ((create_report_from_handover db hid now).2).users = db.users ∧
    ((create_report_from_handover db hid now).2).objects = db.objects ∧
    ((create_report_from_handover db hid now).2).events = db.events ∧
    ((create_report_from_handover db hid now).2).shifts = db.shifts ∧
    ((create_report_from_handover db hid now).2).handovers = db.handovers ∧
    ((create_report_from_handover db hid now).2).nextShiftId = db.nextShiftId ∧
    ((create_report_from_handover db hid now).2).nextHandoverId = db.nextHandoverId := by
  unfold create_report_from_handover
  repeat' split
  all_goals exact ⟨rfl, rfl, rfl, rfl, rfl, rfl, rfl⟩

theorem get_guard_object_id_eq_of_users (db1 db2 : DB) (uid : Nat)
    (h : db1.users = db2.users) :
    get_guard_object_id db1 uid = get_guard_object_id db2 uid := by
  unfold get_guard_object_id; rw [h]

theorem shifts_after_create_shift (db0 db : DB) (uid now : Nat)
    (hu : db0.users = db.users) (hsft : db0.shifts = db.shifts)
    (hnext : db0.nextShiftId = db.nextShiftId) :
    (create_shift db0 uid now).2.shifts = db.shifts ∨
      ∃ oid, get_guard_object_id db uid = some oid ∧
        (create_shift db0 uid now).2.shifts =
          db.shifts ++ [{ id := db.nextShiftId, guard_id := uid, object_id := oid,
                          start_time := now, end_time := none, status := "ACTIVE" }] := by
  rcases create_shift_result_cases db0 uid now with hcase | ⟨oid, hoid, hcase⟩
  · left; rw [hcase, hsft]
  · right
    refine ⟨oid, ?_, ?_⟩
    · rw [← get_guard_object_id_eq_of_users db0 db uid hu]; exact hoid
    · rw [hcase]; simp [hsft, hnext]

/-- C2 counterexample: on `dbReceiverInactive` the designated receiver
(guard 2, deactivated since the handover was created) accepts the `PENDING`
handover 200; the call reports success, yet afterwards guard 2 has no
`ACTIVE` shift at all — the embedded `create_shift` failed silently. -/
theorem accept_handover_counterexample :
    (accept_handover dbReceiverInactive 200 2 false none 7).1 = true ∧
    get_active_shift (accept_handover dbReceiverInactive 200 2 false none 7).2 2 = none := by
  constructor <;> rfl

/-- C2 amended: a successful `AcceptHandover` by the designated receiver of a
`PENDING` handover runs `create_shift` for the receiver, but reports success
regardless of its outcome: afterwards either the shift table is unchanged
(the embedded `create_shift` failed, e.g. the receiver is inactive) or
exactly one brand-new `ACTIVE` shift for the receiver, starting now on the
receiver's currently assigned object, was appended. -/
theorem accept_handover_success_cases (db : DB) (hid uid : Nat) (wn : Bool)
    (notes : Option String) (now : Nat)
    (hs : (accept_handover db hid uid wn notes now).1 = true) :
    ∃ h, db.handovers.find? (fun x => x.id == hid) = some h ∧
      h.status = "PENDING" ∧ h.handover_to_id = uid ∧
      ((accept_handover db hid uid wn notes now).2.shifts = db.shifts ∨
        ∃ oid, get_guard_object_id db uid = some oid ∧
          (accept_handover db hid uid wn notes now).2.shifts =
            db.shifts ++ [{ id := db.nextShiftId, guard_id := uid, object_id := oid,
                            start_time := now, end_time := none, status := "ACTIVE" }]) := by
  unfold accept_handover at hs ⊢
  cases hfind : db.handovers.find? (fun x => x.id == hid) with
  | none => rw [hfind] at hs; simp at hs
  | some h =>
    rw [hfind] at hs
    dsimp only at hs ⊢
    by_cases hst : h.status = "PENDING"
    case neg => rw [if_pos hst] at hs; simp at hs
    case pos =>
      rw [if_neg (not_not_intro hst)] at hs ⊢
      by_cases hto : h.handover_to_id = uid
      case neg => rw [if_pos hto] at hs; simp at hs
      case pos =>
        rw [if_neg (not_not_intro hto)] at hs ⊢
        refine ⟨h, rfl, hst, hto, ?_⟩
        dsimp only
        apply shifts_after_create_shift
        · by_cases hwn : (wn && strTruthy notes) = true
          · rw [if_pos hwn]
            exact (create_report_frame _ hid now).1.trans rfl
          · rw [if_neg hwn]
        · by_cases hwn : (wn && strTruthy notes) = true
          · rw [if_pos hwn]
            exact (create_report_frame _ hid now).2.2.2.1.trans rfl
          · rw [if_neg hwn]
        · by_cases hwn : (wn && strTruthy notes) = true
          · rw [if_pos hwn]
            exact (create_report_frame _ hid now).2.2.2.2.2.1.trans rfl
          · rw [if_neg hwn]

/-- Witness for the amended C2 at a concrete state (the acceptance that
leaves the receiver without a shift). -/
theorem accept_handover_success_cases_witness :
    (accept_handover dbReceiverInactive 200 2 false none 7).1 = true ∧
    (∃ h, dbReceiverInactive.handovers.find? (fun x => x.id == 200) = some h ∧
      h.status = "PENDING" ∧ h.handover_to_id = 2 ∧
      ((accept_handover dbReceiverInactive 200 2 false none 7).2.shifts =
          dbReceiverInactive.shifts ∨
        ∃ oid, get_guard_object_id dbReceiverInactive 2 = some oid ∧
          (accept_handover dbReceiverInactive 200 2 false none 7).2.shifts =
            dbReceiverInactive.shifts ++
              [{ id := dbReceiverInactive.nextShiftId, guard_id := 2, object_id := oid,
                 start_time := 7, end_time := none, status := "ACTIVE" }])) :=
  ⟨rfl, accept_handover_success_cases dbReceiverInactive 200 2 false none 7 rfl⟩

theorem find?_append_singleton_isSome (p : α → Bool) (l : List α) (x : α)
    (hx : p x = true) : ((l ++ [x]).find? p).isSome = true := by
  induction l with
  | nil => simp [List.find?_cons_of_pos, hx]
  | cons y ys ih =>
    by_cases hy : p y = true
    · simp [List.find?_cons_of_pos, hy]
    · have hy' : p y = false := by simpa using hy
      simpa [List.find?_cons_of_neg, hy'] using ih

/-- C3 counterexample at a concrete state: a successful `CreateHandover` on
`dbHandoverDemo` produces three committed states, and the first of them
already holds the inserted handover row while the source shift is still
`ACTIVE` — it differs from the final state, so the writes of the operation
are not committed all-or-none in one unit of work. -/
theorem create_handover_not_one_unit :
    (create_handover dbHandoverDemo 100 1 2 5).1 = some 200 ∧
    (create_handover_commits dbHandoverDemo 100 1 2 5).length = 3 ∧
    ∃ d0, (create_handover_commits dbHandoverDemo 100 1 2 5).head? = some d0 ∧
      (d0.handovers.find? (fun h => h.id == 200)).isSome = true ∧
      get_shift d0 100 = some { id := 100, guard_id := 1, object_id := 10, start_time := 0,
                                end_time := none, status := "ACTIVE" } ∧
      d0 ≠ (create_handover dbHandoverDemo 100 1 2 5).2 := by
  exact ⟨rfl, rfl, ⟨_, rfl, rfl, rfl, by decide⟩⟩

/-- C3 amended: `CreateHandover` is not one unit of work: a successful run
commits three times (the handover insert in its own session, then
`complete_shift`, then `mark_shift_handed_over`, each in a fresh session),
and after the first commit the handover row is durable while the source
shift is still `ACTIVE` — a store failure between the commits leaves a
partial result.  Manager methods additionally catch unexpected store errors
and return a failure value instead of propagating them. -/
theorem create_handover_commits_spec (db : DB) (sid hby hto now hid : Nat) (dbf : DB)
    (h : create_handover db sid hby hto now = (some hid, dbf)) :
    hid = db.nextHandoverId ∧
    (create_handover_commits db sid hby hto now).length = 3 ∧
    (create_handover_commits db sid hby hto now).getLast? = some dbf ∧
    ∃ d0 s0, (create_handover_commits db sid hby hto now).head? = some d0 ∧
      (d0.handovers.find? (fun x => x.id == hid)).isSome = true ∧
      get_shift d0 sid = some s0 ∧ s0.status = "ACTIVE" := by
  unfold create_handover at h
  cases hlast : (create_handover_commits db sid hby hto now).getLast? with
  | none => rw [hlast] at h; simp at h
  | some dbl =>
    rw [hlast] at h
    simp only [Prod.mk.injEq, Option.some.injEq] at h
    obtain ⟨hhid, hdbf⟩ := h
    subst hhid hdbf
    unfold create_handover_commits at hlast ⊢
    cases hsh : get_shift db sid with
    | none => rw [hsh] at hlast; simp at hlast
    | some shift =>
      rw [hsh] at hlast
      dsimp only at hlast ⊢
      by_cases hst : shift.status = "ACTIVE"
      case neg => rw [if_pos hst] at hlast; simp at hlast
      case pos =>
        rw [if_neg (not_not_intro hst)] at hlast ⊢
        by_cases hby' : shift.guard_id = hby
        case neg => rw [if_pos hby'] at hlast; simp at hlast
        case pos =>
          rw [if_neg (not_not_intro hby')] at hlast ⊢
          by_cases hobj : (match get_object db shift.object_id with
            | some obj => obj.protection_type == "TEMPORARY_SINGLE"
            | none => false) = true
          case pos => rw [if_pos hobj] at hlast; simp at hlast
          case neg =>
            rw [if_neg hobj] at hlast ⊢
            by_cases hact : is_guard_active db hto
            case neg =>
              rw [if_pos (by simpa using hact)] at hlast; simp at hlast
            case pos =>
              rw [if_neg (by simpa using hact)] at hlast ⊢
              by_cases hadm : (match get_guard db hto with
                | some g => g.role == "admin"
                | none => false) = true
              case pos => rw [if_pos hadm] at hlast; simp at hlast
              case neg =>
                rw [if_neg hadm] at hlast ⊢
                by_cases hctl : (match get_guard db hto with
                  | some g => g.role == "controller"
                  | none => false) = true
                case pos => rw [if_pos hctl] at hlast; simp at hlast
                case neg =>
                  rw [if_neg hctl] at hlast ⊢
                  by_cases hsame : get_guard_object_id db hby = get_guard_object_id db hto
                  case neg => rw [if_pos hsame] at hlast; simp at hlast
                  case pos =>
                    rw [if_neg (not_not_intro hsame)] at hlast ⊢
                    refine ⟨rfl, rfl, rfl, ?_⟩
                    · refine ⟨_, shift, rfl, ?_, ?_, hst⟩
                      · exact find?_append_singleton_isSome _ db.handovers _ (by simp)
                      · simp [get_shift] at hsh ⊢
                        exact hsh

/-- Witness for the amended C3 at a concrete state. -/
theorem create_handover_commits_spec_witness :
    200 = dbHandoverDemo.nextHandoverId ∧
    (create_handover_commits dbHandoverDemo 100 1 2 5).length = 3 ∧
    (create_handover_commits dbHandoverDemo 100 1 2 5).getLast? =
      some (create_handover dbHandoverDemo 100 1 2 5).2 ∧
    ∃ d0 s0, (create_handover_commits dbHandoverDemo 100 1 2 5).head? = some d0 ∧
      (d0.handovers.find? (fun x => x.id == 200)).isSome = true ∧
      get_shift d0 100 = some s0 ∧ s0.status = "ACTIVE" :=
  create_handover_commits_spec dbHandoverDemo 100 1 2 5 200 _ rfl

/-- C4: the session layer cannot retry.  The unit of work is executed at
most once for every body outcome and every `max_retries`, and whenever
`max_retries` admits a retry (`max_retries ≥ 2`, in particular the
default 3) a transient locked / busy failure of the body ends in the
contextlib `RuntimeError` after a single execution, one rollback, closing
the session and one 0.5-second sleep — the unit of work is never
re-executed, contradicting the claimed retry-up-to-`maxRetries`
behaviour. -/
theorem get_session_retry_dead (body : BodyOutcome) (mr : Nat) :
    ((get_session_run body mr).2.executions ≤ 1) ∧
    (get_session_run (BodyOutcome.raises StoreErr.transient) (mr + 2) =
      (SessionOutcome.runtimeError,
        { executions := 1, committed := false, rolledBack := true, closed := true,
          sleptTenths := [5] })) := by
  constructor
  · unfold get_session_run
    repeat' split
    all_goals simp
  · unfold get_session_run
    rw [if_neg (by omega)]
    dsimp only
    rw [if_pos (by omega)]

theorem complete_shift_eq_of_find (db : DB) (sid now : Nat) (s : Shift)
    (hf : db.shifts.find? (fun t => t.id == sid) = some s) (hst : s.status = "ACTIVE") :
    complete_shift db sid now =
      (true,
        { db with
            shifts := updateFirst (fun t => t.id == sid)
              (fun t => { t with end_time := some now, status := "COMPLETED" })
              db.shifts }) := by
  unfold complete_shift
  rw [hf]
  dsimp only
  rw [if_neg (not_not_intro hst)]

theorem mark_shift_handed_over_eq_of_find (db : DB) (sid now : Nat) (s : Shift)
    (hf : db.shifts.find? (fun t => t.id == sid) = some s) :
    mark_shift_handed_over db sid now =
      (true,
        { db with
            shifts := updateFirst (fun t => t.id == sid)
              (fun t =>
                { t with
                    status := "HANDED_OVER",
                    end_time := match t.end_time with
                      | none => some now
                      | some e => some e })
              db.shifts }) := by
  unfold mark_shift_handed_over
  rw [hf]

theorem create_handover_commits_cases (db : DB) (sid hby hto now : Nat) :
    create_handover_commits db sid hby hto now = [] ∨
    ∃ s0, get_shift db sid = some s0 ∧ s0.status = "ACTIVE" ∧ s0.guard_id = hby ∧
      create_handover_commits db sid hby hto now =
        [ { db with
              handovers := db.handovers ++
                [{ id := db.nextHandoverId, shift_id := sid, handover_by_id := hby,
                   handover_to_id := hto, status := "PENDING",
                   summary := generate_shift_summary db sid, notes := none,
                   handed_over_at := now, accepted_at := none }],
              nextHandoverId := db.nextHandoverId + 1 },
          { db with
              handovers := db.handovers ++
                [{ id := db.nextHandoverId, shift_id := sid, handover_by_id := hby,
                   handover_to_id := hto, status := "PENDING",
                   summary := generate_shift_summary db sid, notes := none,
                   handed_over_at := now, accepted_at := none }],
              nextHandoverId := db.nextHandoverId + 1,
              shifts := updateFirst (fun t => t.id == sid)
                (fun t => { t with end_time := some now, status := "COMPLETED" }) db.shifts },
          { db with
              handovers := db.handovers ++
                [{ id := db.nextHandoverId, shift_id := sid, handover_by_id := hby,
                   handover_to_id := hto, status := "PENDING",
                   summary := generate_shift_summary db sid, notes := none,
                   handed_over_at := now, accepted_at := none }],
              nextHandoverId := db.nextHandoverId + 1,
              shifts := updateFirst (fun t => t.id == sid)
                (fun t => { t with end_time := some now, status := "HANDED_OVER" }) db.shifts } ] := by
  unfold create_handover_commits
  cases hsh : get_shift db sid with
  | none => left; rfl
  | some shift =>
    dsimp only
    by_cases hst : shift.status = "ACTIVE"
    case neg => left; rw [if_pos hst]
    case pos =>
      rw [if_neg (not_not_intro hst)]
      by_cases hby' : shift.guard_id = hby
      case neg => left; rw [if_pos hby']
      case pos =>
        rw [if_neg (not_not_intro hby')]
        by_cases hobj : (match get_object db shift.object_id with
          | some obj => obj.protection_type == "TEMPORARY_SINGLE"
          | none => false) = true
        case pos => left; rw [if_pos hobj]
        case neg =>
          rw [if_neg hobj]
          by_cases hact : is_guard_active db hto
          case neg => left; rw [if_pos (by simpa using hact)]
          case pos =>
            rw [if_neg (by simpa using hact)]
            by_cases hadm : (match get_guard db hto with
              | some g => g.role == "admin"
              | none => false) = true
            case pos => left; rw [if_pos hadm]
            case neg =>
              rw [if_neg hadm]
              by_cases hctl : (match get_guard db hto with
                | some g => g.role == "controller"
                | none => false) = true
              case pos => left; rw [if_pos hctl]
              case neg =>
                rw [if_neg hctl]
                by_cases hsame : get_guard_object_id db hby = get_guard_object_id db hto
                case neg => left; rw [if_pos hsame]
                case pos =>
                  rw [if_neg (not_not_intro hsame)]
                  right
                  refine ⟨shift, rfl, hst, hby', ?_⟩
                  dsimp only
                  have hf1 : db.shifts.find? (fun t => t.id == sid) = some shift := hsh
                  set D1 : DB :=
                    { db with
                        handovers := db.handovers ++
                          [{ id := db.nextHandoverId, shift_id := sid, handover_by_id := hby,
                             handover_to_id := hto, status := "PENDING",
                             summary := generate_shift_summary db sid, notes := none,
                             handed_over_at := now, accepted_at := none }],
                        nextHandoverId := db.nextHandoverId + 1 } with hD1
                  have hfD : D1.shifts.find? (fun t => t.id == sid) = some shift := hf1
                  have h2 := complete_shift_eq_of_find D1 sid now shift hfD hst
                  rw [h2]
                  dsimp only
                  have hfD2 :
                      (updateFirst (fun t => t.id == sid)
                        (fun t => { t with end_time := some now, status := "COMPLETED" })
                        D1.shifts).find? (fun t => t.id == sid) =
                      some { shift with end_time := some now, status := "COMPLETED" } := by
                    rw [find?_updateFirst (fun t => t.id == sid)
                          (fun t => { t with end_time := some now, status := "COMPLETED" })
                          D1.shifts (fun x hx => hx), hfD]
                    rfl
                  have h3 := mark_shift_handed_over_eq_of_find
                    { D1 with
                        shifts := updateFirst (fun t => t.id == sid)
                          (fun t => { t with end_time := some now, status := "COMPLETED" })
                          D1.shifts } sid now
                    { shift with end_time := some now, status := "COMPLETED" } hfD2
                  rw [h3]
                  dsimp only
                  rw [updateFirst_updateFirst (fun t => t.id == sid)
                        (fun t => { t with end_time := some now, status := "COMPLETED" })
                        (fun t =>
                          { t with
                              status := "HANDED_OVER",
                              end_time := match t.end_time with
                                | none => some now
                                | some e => some e })
                        D1.shifts (fun x hx => hx)]

theorem create_handover_success_shape (db : DB) (sid hby hto now hid : Nat) (dbf : DB)
    (h : create_handover db sid hby hto now = (some hid, dbf)) :
    hid = db.nextHandoverId ∧
    ∃ s0, get_shift db sid = some s0 ∧ s0.status = "ACTIVE" ∧ s0.guard_id = hby ∧
      dbf =
        { db with
            handovers := db.handovers ++
              [{ id := db.nextHandoverId, shift_id := sid, handover_by_id := hby,
                 handover_to_id := hto, status := "PENDING",
                 summary := generate_shift_summary db sid, notes := none,
                 handed_over_at := now, accepted_at := none }],
            nextHandoverId := db.nextHandoverId + 1,
            shifts := updateFirst (fun t => t.id == sid)
              (fun t => { t with end_time := some now, status := "HANDED_OVER" }) db.shifts } := by
  unfold create_handover at h
  rcases create_handover_commits_cases db sid hby hto now with hc | ⟨s0, hsh, hst, hgd, hc⟩
  · rw [hc] at h
    simp at h
  · rw [hc] at h
    have hlast :
        ([ { db with
               handovers := db.handovers ++
                 [{ id := db.nextHandoverId, shift_id := sid, handover_by_id := hby,
                    handover_to_id := hto, status := "PENDING",
                    summary := generate_shift_summary db sid, notes := none,
                    handed_over_at := now, accepted_at := none }],
               nextHandoverId := db.nextHandoverId + 1 },
           { db with
               handovers := db.handovers ++
                 [{ id := db.nextHandoverId, shift_id := sid, handover_by_id := hby,
                    handover_to_id := hto, status := "PENDING",
                    summary := generate_shift_summary db sid, notes := none,
                    handed_over_at := now, accepted_at := none }],
               nextHandoverId := db.nextHandoverId + 1,
               shifts := updateFirst (fun t => t.id == sid)
                 (fun t => { t with end_time := some now, status := "COMPLETED" }) db.shifts },
           { db with
               handovers := db.handovers ++
                 [{ id := db.nextHandoverId, shift_id := sid, handover_by_id := hby,
                    handover_to_id := hto, status := "PENDING",
                    summary := generate_shift_summary db sid, notes := none,
                    handed_over_at := now, accepted_at := none }],
               nextHandoverId := db.nextHandoverId + 1,
               shifts := updateFirst (fun t => t.id == sid)
                 (fun t => { t with end_time := some now, status := "HANDED_OVER" }) db.shifts } ] :
          List DB).getLast? =
        some { db with
            handovers := db.handovers ++
              [{ id := db.nextHandoverId, shift_id := sid, handover_by_id := hby,
                 handover_to_id := hto, status := "PENDING",
                 summary := generate_shift_summary db sid, notes := none,
                 handed_over_at := now, accepted_at := none }],
            nextHandoverId := db.nextHandoverId + 1,
            shifts := updateFirst (fun t => t.id == sid)
              (fun t => { t with end_time := some now, status := "HANDED_OVER" }) db.shifts } := rfl
    rw [hlast] at h
    simp only [Prod.mk.injEq, Option.some.injEq] at h
    exact ⟨h.1.symm, s0, hsh, hst, hgd, h.2.symm⟩

/-- C5: `CreateHandover` followed by a non-force `CancelHandover` by the
sender restores the source shift: the cancel succeeds, deletes the `PENDING`
handover row (the handover table returns to its pre-handover contents), and
the shift is back to `status = ACTIVE` with `end_time = null`, all its other
columns (guard, object, start time) untouched; users and objects are
untouched throughout. -/
theorem create_then_cancel_restores (db : DB) (sid hby hto now hid : Nat) (dbf : DB)
    (hwf : db.WF)
    (h : create_handover db sid hby hto now = (some hid, dbf)) :
    (cancel_handover dbf hid hby false).1 = true ∧
    (cancel_handover dbf hid hby false).2.handovers = db.handovers ∧
    (cancel_handover dbf hid hby false).2.shifts =
      updateFirst (fun s => s.id == sid)
        (fun s => { s with status := "ACTIVE", end_time := none }) db.shifts ∧
    (cancel_handover dbf hid hby false).2.users = db.users ∧
    (cancel_handover dbf hid hby false).2.objects = db.objects ∧
    ∃ s0, get_shift db sid = some s0 ∧ s0.status = "ACTIVE" ∧
      get_shift (cancel_handover dbf hid hby false).2 sid =
        some { s0 with status := "ACTIVE", end_time := none } := by
  obtain ⟨hhid, s0, hsh, hst, hgd, hdbf⟩ :=
    create_handover_success_shape db sid hby hto now hid dbf h
  subst hhid hdbf
  have hsh' : db.shifts.find? (fun s => s.id == sid) = some s0 := hsh
  have hbound : ∀ x ∈ db.handovers, (x.id == db.nextHandoverId) = false := by
    intro x hx
    have := hwf.2.2.2.2.2.1 x hx
    simp only [beq_eq_false_iff_ne, ne_eq]
    omega
  have hnone : db.handovers.find? (fun x => x.id == db.nextHandoverId) = none :=
    List.find?_eq_none.mpr (fun x hx => by rw [hbound x hx]; exact Bool.false_ne_true)
  have hfind :
      (db.handovers ++
        [({ id := db.nextHandoverId, shift_id := sid, handover_by_id := hby,
            handover_to_id := hto, status := "PENDING",
            summary := generate_shift_summary db sid, notes := none,
            handed_over_at := now, accepted_at := none } : ShiftHandover)]).find?
          (fun x => x.id == db.nextHandoverId) =
        some { id := db.nextHandoverId, shift_id := sid, handover_by_id := hby,
               handover_to_id := hto, status := "PENDING",
               summary := generate_shift_summary db sid, notes := none,
               handed_over_at := now, accepted_at := none } := by
    rw [find?_append_of_none _ _ _ hnone]
    simp [List.find?_cons_of_pos]
  have hfind2 :
      (updateFirst (fun t => t.id == sid)
        (fun t => { t with end_time := some now, status := "HANDED_OVER" })
        db.shifts).find? (fun s => s.id == sid) =
      some { s0 with end_time := some now, status := "HANDED_OVER" } := by
    rw [find?_updateFirst (fun t => t.id == sid)
          (fun t => { t with end_time := some now, status := "HANDED_OVER" })
          db.shifts (fun x hx => hx), hsh']
    rfl
  have herase :
      (db.handovers ++
        [({ id := db.nextHandoverId, shift_id := sid, handover_by_id := hby,
            handover_to_id := hto, status := "PENDING",
            summary := generate_shift_summary db sid, notes := none,
            handed_over_at := now, accepted_at := none } : ShiftHandover)]).eraseP
          (fun x => x.id == db.nextHandoverId) = db.handovers := by
    rw [eraseP_append_of_none _ _ _ hbound]
    simp [List.eraseP_cons]
  have hcancel :
      cancel_handover
        { db with
            handovers := db.handovers ++
              [{ id := db.nextHandoverId, shift_id := sid, handover_by_id := hby,
                 handover_to_id := hto, status := "PENDING",
                 summary := generate_shift_summary db sid, notes := none,
                 handed_over_at := now, accepted_at := none }],
            nextHandoverId := db.nextHandoverId + 1,
            shifts := updateFirst (fun t => t.id == sid)
              (fun t => { t with end_time := some now, status := "HANDED_OVER" }) db.shifts }
        db.nextHandoverId hby false =
      (true,
        { db with
            handovers := (db.handovers ++
              [({ id := db.nextHandoverId, shift_id := sid, handover_by_id := hby,
                  handover_to_id := hto, status := "PENDING",
                  summary := generate_shift_summary db sid, notes := none,
                  handed_over_at := now, accepted_at := none } : ShiftHandover)]).eraseP
                (fun x => x.id == db.nextHandoverId),
            nextHandoverId := db.nextHandoverId + 1,
            shifts := updateFirst (fun s => s.id == sid)
              (fun s => { s with status := "ACTIVE", end_time := none })
              (updateFirst (fun t => t.id == sid)
                (fun t => { t with end_time := some now, status := "HANDED_OVER" }) db.shifts),
            reports := db.reports.eraseP
              (fun r => r.shift_handover_id == db.nextHandoverId) }) := by
    unfold cancel_handover
    dsimp only
    rw [hfind]
    dsimp only
    rw [if_neg (by simp), if_neg (not_not_intro rfl), if_neg (by simp)]
    rw [hfind2]
  have hshifts :
      updateFirst (fun s => s.id == sid)
        (fun s => { s with status := "ACTIVE", end_time := none })
        (updateFirst (fun t => t.id == sid)
          (fun t => { t with end_time := some now, status := "HANDED_OVER" }) db.shifts) =
      updateFirst (fun s => s.id == sid)
        (fun s => { s with status := "ACTIVE", end_time := none }) db.shifts := by
    rw [updateFirst_updateFirst (fun t => t.id == sid)
          (fun t => { t with end_time := some now, status := "HANDED_OVER" })
          (fun s => { s with status := "ACTIVE", end_time := none })
          db.shifts (fun x hx => hx)]
  rw [hcancel]
  refine ⟨rfl, herase, ?_, rfl, rfl, s0, hsh, hst, ?_⟩
  · exact hshifts
  · show (updateFirst (fun s => s.id == sid)
        (fun s => { s with status := "ACTIVE", end_time := none })
        (updateFirst (fun t => t.id == sid)
          (fun t => { t with end_time := some now, status := "HANDED_OVER" })
          db.shifts)).find? (fun s => s.id == sid) = _
    rw [hshifts]
    rw [find?_updateFirst (fun s => s.id == sid)
          (fun s => { s with status := "ACTIVE", end_time := none })
          db.shifts (fun x hx => hx), hsh']
    rfl

/-- Witness for C5 at a concrete state: guard 1 hands shift 100 over to
guard 2 and then cancels without force; the shift is restored. -/
theorem create_then_cancel_restores_witness :
    dbHandoverDemo.WF ∧
    ((cancel_handover (create_handover dbHandoverDemo 100 1 2 5).2 200 1 false).1 = true ∧
     (cancel_handover (create_handover dbHandoverDemo 100 1 2 5).2 200 1 false).2.handovers =
       dbHandoverDemo.handovers ∧
     (cancel_handover (create_handover dbHandoverDemo 100 1 2 5).2 200 1 false).2.shifts =
       updateFirst (fun s => s.id == 100)
         (fun s => { s with status := "ACTIVE", end_time := none }) dbHandoverDemo.shifts ∧
     (cancel_handover (create_handover dbHandoverDemo 100 1 2 5).2 200 1 false).2.users =
       dbHandoverDemo.users ∧
     (cancel_handover (create_handover dbHandoverDemo 100 1 2 5).2 200 1 false).2.objects =
       dbHandoverDemo.objects ∧
     ∃ s0, get_shift dbHandoverDemo 100 = some s0 ∧ s0.status = "ACTIVE" ∧
       get_shift (cancel_handover (create_handover dbHandoverDemo 100 1 2 5).2 200 1 false).2 100 =
         some { s0 with status := "ACTIVE", end_time := none }) :=
  ⟨by decide, create_then_cancel_restores dbHandoverDemo 100 1 2 5 200 _ (by decide) rfl⟩

theorem accept_handover_post_find (db : DB) (hid uid : Nat) (wn : Bool)
    (notes : Option String) (now : Nat)
    (hs : (accept_handover db hid uid wn notes now).1 = true) :
    ∃ h, db.handovers.find? (fun x => x.id == hid) = some h ∧
      (accept_handover db hid uid wn notes now).2.handovers.find? (fun x => x.id == hid) =
        some (if wn && strTruthy notes then
                { h with status := "ACCEPTED_WITH_NOTES",
                         notes := some ((notes.getD "").trim),
                         accepted_at := some now }
              else
                { h with status := "ACCEPTED", accepted_at := some now }) := by
  unfold accept_handover at hs ⊢
  cases hfind : db.handovers.find? (fun x => x.id == hid) with
  | none => rw [hfind] at hs; simp at hs
  | some h =>
    rw [hfind] at hs
    dsimp only at hs ⊢
    by_cases hst : h.status = "PENDING"
    case neg => rw [if_pos hst] at hs; simp at hs
    case pos =>
      rw [if_neg (not_not_intro hst)] at hs ⊢
      by_cases hto : h.handover_to_id = uid
      case neg => rw [if_pos hto] at hs; simp at hs
      case pos =>
        rw [if_neg (not_not_intro hto)] at hs ⊢
        refine ⟨h, rfl, ?_⟩
        dsimp only
        rw [(create_shift_frame _ uid now).2.2.2.1]
        by_cases hcond : (wn && strTruthy notes) = true
        · rw [if_pos hcond, (create_report_frame _ hid now).2.2.2.2.1]
          dsimp only
          rw [find?_updateFirst (fun x => x.id == hid)
                (fun x =>
                  if wn && strTruthy notes then
                    { x with status := "ACCEPTED_WITH_NOTES",
                             notes := some ((notes.getD "").trim),
                             accepted_at := some now }
                  else
                    { x with status := "ACCEPTED", accepted_at := some now })
                db.handovers
                (fun x hx => by dsimp only; split <;> exact hx),
              hfind]
          simp [hcond]
        · rw [if_neg hcond]
          dsimp only
          rw [find?_updateFirst (fun x => x.id == hid)
                (fun x =>
                  if wn && strTruthy notes then
                    { x with status := "ACCEPTED_WITH_NOTES",
                             notes := some ((notes.getD "").trim),
                             accepted_at := some now }
                  else
                    { x with status := "ACCEPTED", accepted_at := some now })
                db.handovers
                (fun x hx => by dsimp only; split <;> exact hx),
              hfind]
          simp [hcond]

/-- C6: `AcceptHandover` is idempotence-safe: after a successful acceptance,
repeating the call on the same handover id with the same receiver fails with
the already-resolved check and returns the state completely unchanged — in
particular no second receiver shift is created. -/
theorem accept_handover_idempotent (db : DB) (hid uid : Nat) (wn wn2 : Bool)
    (notes notes2 : Option String) (now now2 : Nat)
    (hs : (accept_handover db hid uid wn notes now).1 = true) :
    accept_handover (accept_handover db hid uid wn notes now).2 hid uid wn2 notes2 now2 =
      (false, (accept_handover db hid uid wn notes now).2) := by
  obtain ⟨h, hfind, hfind2⟩ := accept_handover_post_find db hid uid wn notes now hs
  set db1 := (accept_handover db hid uid wn notes now).2 with hdb1
  unfold accept_handover
  rw [hfind2]
  dsimp only
  by_cases hcond : (wn && strTruthy notes) = true
  · rw [if_pos hcond]
    dsimp only
    rw [if_pos (by simp)]
  · rw [if_neg hcond]
    dsimp only
    rw [if_pos (by simp)]

/-- Witness for C6 at a concrete state: the second acceptance of handover
200 fails and changes nothing. -/
theorem accept_handover_idempotent_witness :
    (accept_handover dbReceiverInactive 200 2 false none 7).1 = true ∧
    accept_handover (accept_handover dbReceiverInactive 200 2 false none 7).2 200 2 true
        (some "late notes") 8 =
      (false, (accept_handover dbReceiverInactive 200 2 false none 7).2) :=
  ⟨rfl, accept_handover_idempotent dbReceiverInactive 200 2 false true none
    (some "late notes") 7 8 rfl⟩

/-- Sample state: guard 3 holds the `ACTIVE` shift 300 on object 20, whose
protection type is `TEMPORARY_SINGLE`. -/
def dbTemporary : DB :=
  { users := [{ user_id := 3, object_id := some 20, role := "guard", is_active := true }],
    objects := [{ id := 20, is_active := true, protection_type := "TEMPORARY_SINGLE" }],
    shifts := [{ id := 300, guard_id := 3, object_id := 20, start_time := 2,
                 end_time := none, status := "ACTIVE" }],
    events := [], handovers := [], reports := [],
    nextShiftId := 301, nextHandoverId := 1, nextReportId := 1 }

/-- C7: the `end_shift` bot flow succeeds exactly when the caller is allowed,
holds an `ACTIVE` shift, and that shift lies on an existing object with
`protection_type = TEMPORARY_SINGLE`; on success the shift gets
`end_time = now` and `status = COMPLETED` and nothing else changes in the
shift table; on a `SHIFT`-type object the flow always fails and leaves the
state untouched. -/
theorem end_shift_spec (db : DB) (uid now : Nat) (hwf : db.WF) :
    ((end_shift db uid now).1 = true ↔
      (is_user_allowed db uid = true ∧
        ∃ s, get_active_shift db uid = some s ∧
          ∃ o, get_object db s.object_id = some o ∧
            o.protection_type = "TEMPORARY_SINGLE")) ∧
    (∀ s, get_active_shift db uid = some s → (end_shift db uid now).1 = true →
      (end_shift db uid now).2.shifts =
        updateFirst (fun t => t.id == s.id)
          (fun t => { t with end_time := some now, status := "COMPLETED" }) db.shifts) ∧
    (∀ s o, get_active_shift db uid = some s → get_object db s.object_id = some o →
      o.protection_type = "SHIFT" → end_shift db uid now = (false, db)) := by
  unfold end_shift
  by_cases hall : is_user_allowed db uid = true
  case neg =>
    rw [if_pos hall]
    refine ⟨?_, ?_, ?_⟩
    · simp [hall]
    · intro s hs htrue; simp at htrue
    · intro s o hs ho hpt; rfl
  case pos =>
    rw [if_neg (not_not_intro hall)]
    cases hact : get_active_shift db uid with
    | none =>
      refine ⟨?_, ?_, ?_⟩
      · simp
      · intro s hs; simp at hs
      · intro s o hs; simp at hs
    | some s =>
      dsimp only
      cases hobj : get_object db s.object_id with
      | none =>
        dsimp only
        refine ⟨?_, ?_, ?_⟩
        · constructor
          · intro hfalse; simp at hfalse
          · rintro ⟨-, s', hs', o', ho', -⟩
            obtain rfl : s = s' := Option.some.inj hs'
            rw [hobj] at ho'
            simp at ho'
        · intro s' hs' htrue; simp at htrue
        · intro s' o' hs' ho' hpt'; rfl
      | some o =>
        dsimp only
        by_cases hpt : o.protection_type = "TEMPORARY_SINGLE"
        case neg =>
          rw [if_pos hpt]
          refine ⟨?_, ?_, ?_⟩
          · constructor
            · intro hfalse; simp at hfalse
            · rintro ⟨-, s', hs', o', ho', hpt'⟩
              obtain rfl : s = s' := Option.some.inj hs'
              rw [hobj] at ho'
              obtain rfl : o = o' := Option.some.inj ho'
              exact absurd hpt' hpt
          · intro s' hs' htrue; simp at htrue
          · intro s' o' hs' ho' hpt'; rfl
        case pos =>
          rw [if_neg (not_not_intro hpt)]
          have hsmem : s ∈ db.shifts := List.mem_of_find?_eq_some hact
          have hpred := List.find?_some hact
          simp only [Bool.and_eq_true, beq_iff_eq] at hpred
          have hsact : s.status = "ACTIVE" := hpred.2
          have hfind_id : db.shifts.find? (fun t => t.id == s.id) = some s :=
            find?_key_of_mem_nodup (fun t : Shift => t.id) hwf.1 hsmem
          rw [complete_shift_eq_of_find db s.id now s hfind_id hsact]
          refine ⟨?_, ?_, ?_⟩
          · constructor
            · intro _
              exact ⟨hall, s, rfl, o, hobj, hpt⟩
            · intro _; rfl
          · intro s' hs' _
            obtain rfl : s = s' := Option.some.inj hs'
            rfl
          · intro s' o' hs' ho' hpt'
            obtain rfl : s = s' := Option.some.inj hs'
            rw [hobj] at ho'
            obtain rfl : o = o' := Option.some.inj ho'
            rw [hpt] at hpt'
            exact absurd hpt' (by decide)

/-- Witness for C7 at a concrete state: guard 3 ends shift 300 on the
`TEMPORARY_SINGLE` object 20. -/
theorem end_shift_spec_witness :
    ((end_shift dbTemporary 3 9).1 = true ↔
      (is_user_allowed dbTemporary 3 = true ∧
        ∃ s, get_active_shift dbTemporary 3 = some s ∧
          ∃ o, get_object dbTemporary s.object_id = some o ∧
            o.protection_type = "TEMPORARY_SINGLE")) ∧
    (∀ s, get_active_shift dbTemporary 3 = some s → (end_shift dbTemporary 3 9).1 = true →
      (end_shift dbTemporary 3 9).2.shifts =
        updateFirst (fun t => t.id == s.id)
          (fun t => { t with end_time := some 9, status := "COMPLETED" }) dbTemporary.shifts) ∧
    (∀ s o, get_active_shift dbTemporary 3 = some s →
      get_object dbTemporary s.object_id = some o →
      o.protection_type = "SHIFT" → end_shift dbTemporary 3 9 = (false, dbTemporary)) :=
  end_shift_spec dbTemporary 3 9 (by decide)

/-- Sample state after an acceptance with notes: shift 100 of guard 1 was
handed over via handover 200 to guard 2, who accepted with notes (report 1
derives from the handover) and now holds the auto-created `ACTIVE` shift
101. -/
def dbAccepted : DB :=
  { users := [{ user_id := 1, object_id := some 10, role := "guard", is_active := true },
              { user_id := 2, object_id := some 10, role := "guard", is_active := true }],
    objects := [{ id := 10, is_active := true, protection_type := "SHIFT" }],
    shifts := [{ id := 100, guard_id := 1, object_id := 10, start_time := 0,
                 end_time := some 1, status := "HANDED_OVER" },
               { id := 101, guard_id := 2, object_id := 10, start_time := 2,
                 end_time := none, status := "ACTIVE" }],
    events := [],
    handovers := [{ id := 200, shift_id := 100, handover_by_id := 1, handover_to_id := 2,
                    status := "ACCEPTED_WITH_NOTES", summary := "s",
                    notes := some "broken lock", handed_over_at := 1, accepted_at := some 2 }],
    reports := [{ id := 1, shift_handover_id := 200, object_id := 10, shift_start := 0,
                  shift_end := 1, handover_by_id := 1, handover_to_id := 2,
                  events_count := 0, notes := "broken lock" }],
    nextShiftId := 102, nextHandoverId := 201, nextReportId := 2 }

/-- C8: for an `ACCEPTED_WITH_NOTES` handover whose receiver holds an
`ACTIVE` shift, `RejectHandover` without `force` fails and changes nothing,
while `RejectHandover` with `force` succeeds, deletes the receiver's active
shift, deletes the report derived from the handover, and returns the
handover to `PENDING` with `notes` and `accepted_at` cleared. -/
theorem reject_handover_force_spec (db : DB) (hid uid : Nat) (ho : ShiftHandover) (s : Shift)
    (hwf : db.WF)
    (hfind : db.handovers.find? (fun x => x.id == hid) = some ho)
    (hst : ho.status = "ACCEPTED_WITH_NOTES")
    (hto : ho.handover_to_id = uid)
    (hact : get_active_shift db uid = some s)
    (hne : ho.shift_id ≠ s.id) :
    reject_handover db hid uid false = (false, db) ∧
    (reject_handover db hid uid true).1 = true ∧
    (∀ t ∈ (reject_handover db hid uid true).2.shifts, t.id ≠ s.id) ∧
    (∀ r ∈ (reject_handover db hid uid true).2.reports, r.shift_handover_id ≠ hid) ∧
    (reject_handover db hid uid true).2.handovers.find? (fun x => x.id == hid) =
      some { ho with status := "PENDING", accepted_at := none, notes := none } := by
  have hid_eq : ho.id = hid := by
    have := List.find?_some hfind
    simpa using this
  subst hid_eq
  have hsmem : s ∈ db.shifts := List.mem_of_find?_eq_some hact
  have hhmem : ho ∈ db.handovers := List.mem_of_find?_eq_some hfind
  have hfid : db.shifts.find? (fun t => t.id == s.id) = some s :=
    find?_key_of_mem_nodup (fun t : Shift => t.id) hwf.1 hsmem
  have hdel : delete_shift db s.id =
      (true,
        { db with
            shifts := db.shifts.eraseP (fun t => t.id == s.id),
            events := db.events.filter (fun e => ¬ e.shift_id == s.id),
            handovers := db.handovers.filter (fun h => ¬ h.shift_id == s.id),
            reports := db.reports.filter (fun r =>
              ¬ db.handovers.any (fun h => h.shift_id == s.id && h.id == r.shift_handover_id)) }) := by
    unfold delete_shift
    rw [hfid]
  have hfalse : reject_handover db ho.id uid false = (false, db) := by
    unfold reject_handover
    rw [hfind]
    dsimp only
    rw [if_neg (not_not_intro (Or.inr hst)), if_neg (not_not_intro hto), hact]
    dsimp only
    rw [if_pos ((⟨rfl, rfl⟩ : (some s).isSome = true ∧ (false = false)))]
  have htrue : reject_handover db ho.id uid true =
      (true,
        { db with
            shifts := db.shifts.eraseP (fun t => t.id == s.id),
            events := db.events.filter (fun e => ¬ e.shift_id == s.id),
            handovers := updateFirst (fun x => x.id == ho.id)
              (fun x => { x with status := "PENDING", accepted_at := none, notes := none })
              (db.handovers.filter (fun h => ¬ h.shift_id == s.id)),
            reports := (db.reports.filter (fun r =>
                ¬ db.handovers.any
                  (fun h => h.shift_id == s.id && h.id == r.shift_handover_id))).eraseP
              (fun r => r.shift_handover_id == ho.id) }) := by
    unfold reject_handover
    rw [hfind]
    dsimp only
    rw [if_neg (not_not_intro (Or.inr hst)), if_neg (not_not_intro hto), hact]
    dsimp only
    rw [if_neg ((by simp : ¬((some s).isSome = true ∧ (true = false))))]
    rw [hdel]
    dsimp only
    rw [if_pos hst]
  rw [hfalse, htrue]
  refine ⟨rfl, rfl, ?_, ?_, ?_⟩
  · exact eraseP_key_not_mem (fun t : Shift => t.id) s.id hwf.1
  · apply eraseP_key_not_mem (fun r : Report => r.shift_handover_id) ho.id
    exact List.Nodup.sublist (db.reports.filter_sublist.map _) hwf.2.2.2.1
  · have hmemf : ho ∈ db.handovers.filter (fun h => ¬ h.shift_id == s.id) :=
      List.mem_filter.mpr ⟨hhmem, by simp [hne]⟩
    have hndf : ((db.handovers.filter (fun h => ¬ h.shift_id == s.id)).map
        (fun x : ShiftHandover => x.id)).Nodup :=
      List.Nodup.sublist (db.handovers.filter_sublist.map _) hwf.2.1
    show (updateFirst (fun x => x.id == ho.id)
          (fun x => { x with status := "PENDING", accepted_at := none, notes := none })
          (db.handovers.filter (fun h => ¬ h.shift_id == s.id))).find?
        (fun x => x.id == ho.id) = _
    rw [find?_updateFirst (fun x => x.id == ho.id)
          (fun x => { x with status := "PENDING", accepted_at := none, notes := none })
          (db.handovers.filter (fun h => ¬ h.shift_id == s.id))
          (fun x hx => hx),
        find?_key_of_mem_nodup (fun x : ShiftHandover => x.id) hndf hmemf]
    rfl

/-- Witness for C8 at a concrete state: rejecting handover 200 with force
deletes shift 101 and report 1 and re-pends the handover. -/
theorem reject_handover_force_spec_witness :
    dbAccepted.WF ∧
    (reject_handover dbAccepted 200 2 false = (false, dbAccepted) ∧
     (reject_handover dbAccepted 200 2 true).1 = true ∧
     (∀ t ∈ (reject_handover dbAccepted 200 2 true).2.shifts, t.id ≠ 101) ∧
     (∀ r ∈ (reject_handover dbAccepted 200 2 true).2.reports, r.shift_handover_id ≠ 200) ∧
     (reject_handover dbAccepted 200 2 true).2.handovers.find? (fun x => x.id == 200) =
       some { id := 200, shift_id := 100, handover_by_id := 1, handover_to_id := 2,
              status := "PENDING", summary := "s", notes := none,
              handed_over_at := 1, accepted_at := none }) :=
  ⟨by decide,
   reject_handover_force_spec dbAccepted 200 2
     { id := 200, shift_id := 100, handover_by_id := 1, handover_to_id := 2,
       status := "ACCEPTED_WITH_NOTES", summary := "s", notes := some "broken lock",
       handed_over_at := 1, accepted_at := some 2 }
     { id := 101, guard_id := 2, object_id := 10, start_time := 2, end_time := none,
       status := "ACTIVE" }
     (by decide) rfl rfl rfl rfl (by decide)⟩

/-- C9 counterexample: on `dbTemporary` the invariant holds, and
`update_shift` with only `status = COMPLETED` succeeds but leaves
`end_time = null` on a non-`ACTIVE` shift, breaking the invariant. -/
theorem shift_invariant_counterexample :
    dbTemporary.shiftInvariant ∧
    (update_shift dbTemporary 300 none none none none (some "COMPLETED")).1 = true ∧
    ¬ (update_shift dbTemporary 300 none none none none (some "COMPLETED")).2.shiftInvariant := by
  exact ⟨by decide, rfl, by decide⟩

theorem delete_shift_shifts_sub (db : DB) (sid : Nat) :
    ∀ t ∈ (delete_shift db sid).2.shifts, t ∈ db.shifts := by
  unfold delete_shift
  cases hf : db.shifts.find? (fun s => s.id == sid) with
  | none => intro t ht; exact ht
  | some s =>
    intro t ht
    exact (List.eraseP_sublist _).subset ht

theorem mem_shifts_after_restore (dbX : DB) (sid : Nat) (t : Shift)
    (ht : t ∈ (match dbX.shifts.find? (fun s : Shift => s.id == sid) with
               | none => dbX
               | some _ =>
                 { dbX with
                     shifts := updateFirst (fun s => s.id == sid)
                       (fun s => { s with status := "ACTIVE", end_time := none })
                       dbX.shifts }).shifts) :
    t ∈ dbX.shifts ∨ ∃ y ∈ dbX.shifts, t = { y with status := "ACTIVE", end_time := none } := by
  cases hf : dbX.shifts.find? (fun s => s.id == sid) with
  | none =>
    rw [hf] at ht
    exact Or.inl ht
  | some s =>
    rw [hf] at ht
    rcases mem_updateFirst ht with h | ⟨y, hy, hpy, rfl⟩
    · exact Or.inl h
    · exact Or.inr ⟨y, hy, rfl⟩

/-- C9 amended: the invariant `end_time` set iff `status ≠ ACTIVE` is
preserved by `create_shift`, `complete_shift`, `mark_shift_handed_over` and
`cancel_handover` (including its restore step), but `update_shift` does not
preserve it: it writes `status` and `end_time` independently, so a status
change without an accompanying `end_time` leaves a violating row (see the
counterexample). -/
theorem shift_invariant_preserved (db : DB) (hinv : db.shiftInvariant) :
    (∀ gid now, ((create_shift db gid now).2).shiftInvariant) ∧
    (∀ sid now, ((complete_shift db sid now).2).shiftInvariant) ∧
    (∀ sid now, ((mark_shift_handed_over db sid now).2).shiftInvariant) ∧
    (∀ hid uid force, ((cancel_handover db hid uid force).2).shiftInvariant) := by
  refine ⟨?_, ?_, ?_, ?_⟩
  · intro gid now
    rcases create_shift_result_cases db gid now with hcase | ⟨oid, _, hcase⟩
    · rw [hcase]; exact hinv
    · rw [hcase]
      intro t ht
      rcases List.mem_append.mp ht with h | h
      · exact hinv t h
      · rcases List.mem_singleton.mp h with rfl
        simp [ShiftInvariant]
  · intro sid now
    unfold complete_shift
    cases hf : db.shifts.find? (fun t => t.id == sid) with
    | none => exact hinv
    | some s =>
      dsimp only
      by_cases hst : s.status = "ACTIVE"
      case neg => rw [if_pos hst]; exact hinv
      case pos =>
        rw [if_neg (not_not_intro hst)]
        intro t ht
        rcases mem_updateFirst ht with h | ⟨y, hy, hpy, rfl⟩
        · exact hinv t h
        · simp [ShiftInvariant]
  · intro sid now
    unfold mark_shift_handed_over
    cases hf : db.shifts.find? (fun t => t.id == sid) with
    | none => exact hinv
    | some s =>
      dsimp only
      intro t ht
      rcases mem_updateFirst ht with h | ⟨y, hy, hpy, rfl⟩
      · exact hinv t h
      · cases hyet : y.end_time <;> simp [ShiftInvariant, hyet]
  · intro hid uid force
    unfold cancel_handover
    cases hf : db.handovers.find? (fun h => h.id == hid) with
    | none => exact hinv
    | some h =>
      dsimp only
      by_cases h1 : ¬ force = true ∧ h.status ≠ "PENDING"
      · rw [if_pos h1]; exact hinv
      · rw [if_neg h1]
        by_cases h2 : h.handover_by_id ≠ uid
        · rw [if_pos h2]; exact hinv
        · rw [if_neg h2]
          dsimp only
          intro t ht
          rcases mem_shifts_after_restore _ h.shift_id t ht with hmem | ⟨y, hy, rfl⟩
          · apply hinv t
            revert hmem
            by_cases h3 : h.status = "ACCEPTED" ∨ h.status = "ACCEPTED_WITH_NOTES"
            · rw [if_pos h3]
              cases ha : get_active_shift db h.handover_to_id with
              | none =>
                by_cases h4 : h.status = "ACCEPTED_WITH_NOTES"
                · rw [if_pos h4]; exact fun hm => hm
                · rw [if_neg h4]; exact fun hm => hm
              | some s2 =>
                by_cases h4 : h.status = "ACCEPTED_WITH_NOTES"
                · rw [if_pos h4]; exact fun hm => delete_shift_shifts_sub db s2.id t hm
                · rw [if_neg h4]; exact fun hm => delete_shift_shifts_sub db s2.id t hm
            · rw [if_neg h3]; exact fun hm => hm
          · simp [ShiftInvariant]

/-- Witness for the amended C9 at a concrete state. -/
theorem shift_invariant_preserved_witness :
    dbTemporary.shiftInvariant ∧
    ((create_shift dbTemporary 3 7).2).shiftInvariant ∧
    ((complete_shift dbTemporary 300 7).2).shiftInvariant ∧
    ((mark_shift_handed_over dbTemporary 300 7).2).shiftInvariant ∧
    ((cancel_handover dbTemporary 1 1 false).2).shiftInvariant :=
  ⟨by decide,
   (shift_invariant_preserved dbTemporary (by decide)).1 3 7,
   (shift_invariant_preserved dbTemporary (by decide)).2.1 300 7,
   (shift_invariant_preserved dbTemporary (by decide)).2.2.1 300 7,
   (shift_invariant_preserved dbTemporary (by decide)).2.2.2 1 1 false⟩

/-- C10: `AcceptHandover` called with `with_notes = true` but absent or
empty notes (or with `with_notes = false`) never creates a report and, when
it succeeds, records plain status `ACCEPTED` with `accepted_at = now`,
leaving the stored `notes` column untouched — `ACCEPTED_WITH_NOTES` and a
report arise only from a truthy notes string. -/
theorem accept_handover_empty_notes (db : DB) (hid uid : Nat) (wn : Bool)
    (notes : Option String) (now : Nat)
    (hn : wn = false ∨ notes = none ∨ notes = some "") :
    ((accept_handover db hid uid wn notes now).2.reports = db.reports) ∧
    ((accept_handover db hid uid wn notes now).1 = true →
      ∃ h, db.handovers.find? (fun x => x.id == hid) = some h ∧
        (accept_handover db hid uid wn notes now).2.handovers.find? (fun x => x.id == hid) =
          some { h with status := "ACCEPTED", accepted_at := some now }) := by
  have hcond : (wn && strTruthy notes) = false := by
    rcases hn with rfl | rfl | rfl <;> simp [strTruthy]
  refine ⟨?_, ?_⟩
  · unfold accept_handover
    cases hfind : db.handovers.find? (fun x => x.id == hid) with
    | none => rfl
    | some h =>
      dsimp only
      by_cases hst : h.status = "PENDING"
      case neg => rw [if_pos hst]
      case pos =>
        rw [if_neg (not_not_intro hst)]
        by_cases hto : h.handover_to_id = uid
        case neg => rw [if_pos hto]
        case pos =>
          rw [if_neg (not_not_intro hto)]
          dsimp only
          rw [if_neg ((by rw [hcond]; simp : ¬((wn && strTruthy notes) = true)))]
          rw [(create_shift_frame _ uid now).2.2.2.2.1]
  · intro hs
    obtain ⟨h, hfind, hfind2⟩ := accept_handover_post_find db hid uid wn notes now hs
    refine ⟨h, hfind, ?_⟩
    rw [hfind2]
    simp [hcond]

/-- Witness for C10 at a concrete state: accepting with `with_notes = true`
but empty notes yields plain `ACCEPTED` and no report. -/
theorem accept_handover_empty_notes_witness :
    (true = false ∨ (some "" : Option String) = none ∨
      (some "" : Option String) = some "") ∧
    (((accept_handover dbReceiverInactive 200 2 true (some "") 7).2.reports =
        dbReceiverInactive.reports) ∧
     ((accept_handover dbReceiverInactive 200 2 true (some "") 7).1 = true →
       ∃ h, dbReceiverInactive.handovers.find? (fun x => x.id == 200) = some h ∧
         (accept_handover dbReceiverInactive 200 2 true (some "") 7).2.handovers.find?
             (fun x => x.id == 200) =
           some { h with status := "ACCEPTED", accepted_at := some 7 })) :=
  ⟨Or.inr (Or.inr rfl),
   accept_handover_empty_notes dbReceiverInactive 200 2 true (some "") 7
     (Or.inr (Or.inr rfl))⟩
